import Mathlib

/-!
Shallow embedding of `src/self_supervised/main_pretrain.py` (SSL-MEDSEG).

The script is a sequential driver: configuration checks, model assembly
(with optional pretrained-weight loading and momentum re-seeding), data
pipeline construction, auto-resume resolution, callback assembly, trainer
keyword-argument projection, a best-effort fit-loop patch, and the final
`trainer.fit` dispatch.  Every definition below is translated from the
source file; external collaborators (the method registry, the weight zoo,
the checkpoint scan, the Trainer signature) are abstracted as an
environment record of inputs the script consumes.
-/

namespace SSLMedseg

/-- Values stored in `cfg.backbone.kwargs` (a Python dict).  `null` stands
for Python `None` stored as a value. -/
inductive KwVal where
  | str (s : String)
  | boolean (b : Bool)
  | natural (n : Nat)
  | null
deriving DecidableEq

/-- Values of the top-level configuration container produced by
`OmegaConf.to_container(cfg)` (line 264).  Nested sections are collapsed to
`nested`; only keys matter for the Trainer-kwargs projection. -/
inductive CVal where
  | str (s : String)
  | natural (n : Nat)
  | boolean (b : Bool)
  | optStr (o : Option String)
  | nested
deriving DecidableEq

/-- Association-list lookup, modelling Python `dict` access (keys unique). -/
def alookup {α : Type} (m : List (String × α)) (k : String) : Option α :=
  match m with
  | [] => Option.none
  | (k2, v) :: rest => if k2 = k then some v else alookup rest k

/-- Key-presence test, modelling Python `key in dict`. -/
def hasKey {α : Type} (m : List (String × α)) (k : String) : Bool :=
  (alookup m k).isSome

/-- Remove a key, modelling the removal half of Python `dict.pop`. -/
def aerase {α : Type} (m : List (String × α)) (k : String) : List (String × α) :=
  match m with
  | [] => []
  | (k2, v) :: rest => if k2 = k then aerase rest k else (k2, v) :: aerase rest k

/-- Set a key, modelling Python `dict[k] = v` / `dict.update`: an existing
key is overwritten in place, a new key is appended. -/
def aset {α : Type} (m : List (String × α)) (k : String) (v : α) :
    List (String × α) :=
  match m with
  | [] => [(k, v)]
  | (k2, w) :: rest => if k2 = k then (k, v) :: rest else (k2, w) :: aset rest k v

/-- Whether a string begins with the character `/` (the only part of the
`os.path.join` semantics that the paths of the script depend on). -/
def startsWithSlash (s : String) : Bool :=
  match s.data with
  | [] => false
  | c :: _ => c = '/'

/-- Whether a string ends with the character `/`. -/
def endsWithSlash (s : String) : Bool :=
  match s.data.getLast? with
  | some c => c = '/'
  | Option.none => false

/-- Model of `os.path.join(a, b)` for the two-argument calls made by the script. -/
def pathJoin (a b : String) : String :=
  if startsWithSlash b then b
  else if a = "" then b
  else if endsWithSlash a then a ++ b
  else a ++ "/" ++ b

/-- The `cfg.data` section of the configuration. -/
structure DataCfg where
  dataset : String
  format : String
  custom_dataset_name : String
  train_path : String
  val_path : Option String
  no_labels : Bool
  num_large_crops : Nat
  num_small_crops : Nat
  num_workers : Nat
  fraction : Int
deriving DecidableEq

/-- The `cfg.checkpoint` section. -/
structure CheckpointCfg where
  enabled : Bool
  dir : String
  frequency : Nat
  keep_prev : Bool
deriving DecidableEq

/-- The `cfg.auto_resume` section. -/
structure AutoResumeCfg where
  enabled : Bool
  max_hours : Nat
deriving DecidableEq

/-- The `cfg.auto_umap` section. -/
structure AutoUmapCfg where
  enabled : Bool
  dir : String
  frequency : Nat
deriving DecidableEq

/-- The `cfg.wandb` section. -/
structure WandbCfg where
  enabled : Bool
  project : String
  entity : String
  offline : Bool
deriving DecidableEq

/-- The configuration object as seen by `main` after `parse_cfg` and name
substitution (lines 77-83).  `extra` holds the remaining user-supplied
top-level keys (e.g. `max_epochs`, `devices`) that may flow to the
Trainer. -/
structure Cfg where
  method : String
  name : String
  seed : Nat
  backbone_kwargs : List (String × KwVal)
  data : DataCfg
  batch_size : Nat
  checkpoint : CheckpointCfg
  auto_resume : AutoResumeCfg
  auto_umap : AutoUmapCfg
  wandb : WandbCfg
  resume_from_checkpoint : Option String
  strategy : String
  debug_augmentations : Bool
  disable_channel_last : Bool
  extra : List (String × CVal)
deriving DecidableEq

/-- A method instance: the primary backbone parameters and, for methods of
the momentum family (`BaseMomentumMethod`), the momentum shadow backbone. -/
structure Model where
  backbone : List Int
  momentum_backbone : Option (List Int)
deriving DecidableEq

/-- The environment of external collaborators the script consumes:
the method registry `METHODS`, the momentum sub-family, availability of the
optional dali/umap imports, backbone construction, the pretrained weight
zoo, the auto-resume directory scan, and the declared parameter names of
`Trainer.__init__`. -/
structure Env where
  methods : List String
  momentumMethods : List String
  daliAvailable : Bool
  umapAvailable : Bool
  initBackbone : String → List (String × KwVal) → List Int
  initMomentum : String → List (String × KwVal) → List Int
  zoo : KwVal → Nat → List Int
  findCheckpoint : String → Option String × Option String
  validTrainerParams : List String

/-- Side effects the script performs, in order, as an observable trace. -/
inductive Event where
  | seedEverything (seed : Nat)
  | registerTimmBackbone
  | modelConstruct (method : String) (kwargs : List (String × KwVal))
  | zooLoad (spec : KwVal) (in_chans : Nat)
  | momentumInit
  | makeContiguous
  | channelsLast
  | valLoaderBuild (dataset : String) (data_format : String)
  | daliDatamoduleBuild
  | acdcDatasetBuild (root : String)
  | genericDatasetBuild (dataset : String)
  | standardDataloaderBuild
  | autoResumeScan (dir : String) (max_hours : Nat)
  | wandbLoggerCreate
  | trainerConstruct
  | patchApplied
  | patchFailed
  | fitDali (ckpt : Option String)
  | fitStandard (ckpt : Option String)
deriving DecidableEq

/-- Fatal errors the script can raise before the training run starts. -/
inductive Err where
  | unknownMethod (m : String)
  | cropCount (m : String) (n : Nat)
  | daliUnavailable (msg : String)
  | umapUnavailable (msg : String)
deriving DecidableEq

/-- Side-effect hooks (pytorch-lightning callbacks) assembled at
lines 220-262. -/
inductive Hook where
  | checkpointer (logdir : String) (frequency : Nat) (keep_prev : Bool)
  | autoUmap (name : String) (logdir : String) (frequency : Nat)
  | lrMonitor (logging_interval : String)
  | weightsSaver (milestones : List Nat)
deriving DecidableEq

/-- The `WandbLogger` constructed at lines 245-252. -/
structure WandbLoggerRec where
  name : String
  project : String
  entity : String
  offline : Bool
  resume : Option String
  id : Option String
deriving DecidableEq

/-- The `strategy` value passed to the Trainer (lines 273-275). -/
inductive Strategy where
  | ddpStrategy (find_unused_parameters : Bool)
  | named (s : String)
deriving DecidableEq

/-- A value in the Trainer keyword-argument dictionary: either a raw
configuration value that survived the signature filter, or one of the four
script-computed overrides (lines 268-277). -/
inductive TrainerArg where
  | raw (v : CVal)
  | loggerArg (l : Option WandbLoggerRec)
  | callbacksArg (cbs : List Hook)
  | enableCheckpointingArg (b : Bool)
  | strategyArg (s : Strategy)
deriving DecidableEq

/-- The `trainer.fit` dispatch at lines 297-300. -/
inductive FitCall where
  | daliFit (ckpt : Option String)
  | standardFit (ckpt : Option String) (hasValLoader : Bool)
deriving DecidableEq

/-- The ckpt_path argument of a fit dispatch. -/
def fitCkpt : FitCall → Option String
  | FitCall.daliFit c => c
  | FitCall.standardFit c _ => c

/-- The trace event recording a fit dispatch. -/
def fitEvent : FitCall → Event
  | FitCall.daliFit c => Event.fitDali c
  | FitCall.standardFit c _ => Event.fitStandard c

/-- The test `pretrain_cfg not in [None, "None", "imagenet"]` negated: the values of
the popped `pretrained_weights` key for which line 105 skips the zoo load.
`Option.none` is an absent key (pop default `None`), `KwVal.null` an
explicit `None` value. -/
def noZooLoad (p : Option KwVal) : Bool :=
  match p with
  | Option.none => true
  | some KwVal.null => true
  | some (KwVal.str s) => s = "None" || s = "imagenet"
  | some _ => false

/-- The lookup `cfg.backbone.kwargs.get("in_chans", 3)` at line 107. -/
def getInChans (kw : List (String × KwVal)) : Nat :=
  match alookup kw "in_chans" with
  | some (KwVal.natural n) => n
  | _ => 3

/-- Modelled from the spec: `solo.utils.momentum.initialize_momentum_params`
(the `solo` package is not under `src/`).  Per the spec it re-seeds the
parameters of the momentum shadow backbone from the just-loaded primary
backbone. -/
def init_momentum_params (m : Model) : Model :=
  { m with momentum_backbone := some m.backbone }

/-- Result of the model-assembly phase (lines 94-113). -/
structure AssembleResult where
  pretrain_cfg : Option KwVal
  kwargs_at_construction : List (String × KwVal)
  kwargs_after : List (String × KwVal)
  model : Model
  zooLoadPerformed : Bool
  events : List Event

/-- Lines 94-113: pop `pretrained_weights`; when it is exactly `"imagenet"`
and no `pretrained` key exists, set `pretrained = True`; construct the
method instance; reinsert the popped key for logging; when the specifier is
none of `None`/`"None"`/`"imagenet"`, load zoo weights into the backbone
and, for momentum methods, re-seed the momentum backbone. -/
def assembleModel (env : Env) (cfg : Cfg) : AssembleResult :=
  let p := alookup cfg.backbone_kwargs "pretrained_weights"
  let kw := aerase cfg.backbone_kwargs "pretrained_weights"
  let kw :=
    if p = some (KwVal.str "imagenet") ∧ hasKey kw "pretrained" = false then
      aset kw "pretrained" (KwVal.boolean true)
    else kw
  let model : Model :=
    { backbone := env.initBackbone cfg.method kw
      momentum_backbone :=
        if cfg.method ∈ env.momentumMethods then
          some (env.initMomentum cfg.method kw)
        else Option.none }
  let kwAfter := aset kw "pretrained_weights" ((p).getD KwVal.null)
  if noZooLoad p then
    { pretrain_cfg := p, kwargs_at_construction := kw, kwargs_after := kwAfter
      model := model, zooLoadPerformed := false
      events := [Event.modelConstruct cfg.method kw] }
  else
    let w := env.zoo ((p).getD KwVal.null) (getInChans kw)
    let model2 : Model := { model with backbone := w }
    let model3 :=
      if cfg.method ∈ env.momentumMethods then init_momentum_params model2
      else model2
    { pretrain_cfg := p, kwargs_at_construction := kw, kwargs_after := kwAfter
      model := model3, zooLoadPerformed := true
      events := [Event.modelConstruct cfg.method kw,
                 Event.zooLoad ((p).getD KwVal.null) (getInChans kw)]
        ++ (if cfg.method ∈ env.momentumMethods then [Event.momentumInit] else []) }

/-- Lines 121-138: the validation dataloader is built unless the dataset is
`custom` with no labels or no validation path, or an imagenet variant with
no validation path; with the dali format the validation data format falls
back to `image_folder`. -/
def buildValLoader (cfg : Cfg) : Bool × List Event :=
  if cfg.data.dataset = "custom" ∧
      (cfg.data.no_labels = true ∨ cfg.data.val_path = Option.none) then
    (false, [])
  else if cfg.data.dataset ∈ ["imagenet100", "imagenet"] ∧
      cfg.data.val_path = Option.none then
    (false, [])
  else
    let fmt := if cfg.data.format = "dali" then "image_folder" else cfg.data.format
    (true, [Event.valLoaderBuild cfg.data.dataset fmt])

/-- Lines 141-199: the pretrain data pipeline.  The dali branch asserts the
optional dependency imported; the standard branch builds the acdc or the
generic dataset and then the dataloader.  Returns whether the dali branch
was taken. -/
def buildPretrainData (env : Env) (cfg : Cfg) : Except Err (Bool × List Event) :=
  if cfg.data.format = "dali" then
    if env.daliAvailable = false then
      Except.error (Err.daliUnavailable
        "Dali is not currently avaiable, please install it first with pip3 install .[dali].")
    else Except.ok (true, [Event.daliDatamoduleBuild])
  else
    let ev :=
      if cfg.data.custom_dataset_name = "acdc" then
        [Event.acdcDatasetBuild cfg.data.train_path]
      else [Event.genericDatasetBuild cfg.data.dataset]
    Except.ok (false, ev ++ [Event.standardDataloaderBuild])

/-- The directory the `AutoResumer` scans (line 206):
`os.path.join(cfg.checkpoint.dir, cfg.method)`. -/
def autoResumerScanDir (cfg : Cfg) : String :=
  pathJoin cfg.checkpoint.dir cfg.method

/-- The directory the `Checkpointer` hook writes into (line 226):
`os.path.join(cfg.checkpoint.dir, f"{cfg.method}_{cfg.data.custom_dataset_name}")`. -/
def checkpointerLogdir (cfg : Cfg) : String :=
  pathJoin cfg.checkpoint.dir (cfg.method ++ "_" ++ cfg.data.custom_dataset_name)

/-- Result of the resume-resolution phase (lines 203-218). -/
structure ResumeResult where
  ckpt_path : Option String
  wandb_run_id : Option String
  resumeDeleted : Bool
  events : List Event
deriving DecidableEq

/-- Lines 203-218: when auto-resume is enabled and no explicit path is
given, scan the method subdirectory of the checkpoint dir; otherwise, when
an explicit path is given, use it and delete the key from the
configuration. -/
def resolveResume (env : Env) (cfg : Cfg) : ResumeResult :=
  if cfg.auto_resume.enabled = true ∧ cfg.resume_from_checkpoint = Option.none then
    let r := env.findCheckpoint (autoResumerScanDir cfg)
    { ckpt_path := r.1, wandb_run_id := r.2, resumeDeleted := false
      events := [Event.autoResumeScan (autoResumerScanDir cfg) cfg.auto_resume.max_hours] }
  else if cfg.resume_from_checkpoint ≠ Option.none then
    { ckpt_path := cfg.resume_from_checkpoint, wandb_run_id := Option.none
      resumeDeleted := true, events := [] }
  else
    { ckpt_path := Option.none, wandb_run_id := Option.none
      resumeDeleted := false, events := [] }

/-- Lines 220-262: callback assembly.  The Checkpointer is appended when
`cfg.checkpoint.enabled`; the AutoUMAP hook asserts its optional dependency
and is appended when `cfg.auto_umap.enabled`; the LearningRateMonitor is
appended inside the wandb block when `cfg.wandb.enabled`; the WeightsSaver
with milestones `[5, 10, 50, 100, 200, 300, 400]` is appended when
`cfg.checkpoint.enabled`. -/
def buildCallbacks (env : Env) (cfg : Cfg) : Except Err (List Hook) :=
  let cbs : List Hook := []
  let cbs :=
    if cfg.checkpoint.enabled then
      cbs ++ [Hook.checkpointer (checkpointerLogdir cfg)
                cfg.checkpoint.frequency cfg.checkpoint.keep_prev]
    else cbs
  if cfg.auto_umap.enabled = true ∧ env.umapAvailable = false then
    Except.error (Err.umapUnavailable
      "UMAP is not currently avaiable, please install it first with [umap].")
  else
    let cbs :=
      if cfg.auto_umap.enabled then
        cbs ++ [Hook.autoUmap cfg.name (pathJoin cfg.auto_umap.dir cfg.method)
                  cfg.auto_umap.frequency]
      else cbs
    let cbs := if cfg.wandb.enabled then cbs ++ [Hook.lrMonitor "step"] else cbs
    let cbs :=
      if cfg.checkpoint.enabled then
        cbs ++ [Hook.weightsSaver [5, 10, 50, 100, 200, 300, 400]]
      else cbs
    Except.ok cbs

/-- Python truthiness of the optional wandb run id (line 250). -/
def pyTruthyStr (o : Option String) : Bool :=
  match o with
  | some s => !(s = "")
  | Option.none => false

/-- Lines 244-252: the `WandbLogger` is built only when wandb is enabled;
`resume` is `"allow"` when the run id is truthy. -/
def buildWandbLogger (cfg : Cfg) (run_id : Option String) : Option WandbLoggerRec :=
  if cfg.wandb.enabled then
    some { name := cfg.name, project := cfg.wandb.project
           entity := cfg.wandb.entity, offline := cfg.wandb.offline
           resume := if pyTruthyStr run_id then some "allow" else Option.none
           id := run_id }
  else Option.none

/-- The container `OmegaConf.to_container(cfg)` at line 264: the top-level keys of the
configuration.  `resume_from_checkpoint` is absent when line 218 deleted
it.  `extra` carries the remaining user-supplied top-level keys. -/
def cfgContainer (cfg : Cfg) (resumeDeleted : Bool) : List (String × CVal) :=
  [("method", CVal.str cfg.method), ("name", CVal.str cfg.name),
   ("seed", CVal.natural cfg.seed), ("backbone", CVal.nested),
   ("data", CVal.nested), ("optimizer", CVal.nested),
   ("checkpoint", CVal.nested), ("auto_resume", CVal.nested),
   ("auto_umap", CVal.nested), ("wandb", CVal.nested),
   ("strategy", CVal.str cfg.strategy), ("performance", CVal.nested),
   ("debug_augmentations", CVal.boolean cfg.debug_augmentations),
   ("augmentations", CVal.nested), ("dali", CVal.nested)]
  ++ (if resumeDeleted then []
      else [("resume_from_checkpoint", CVal.optStr cfg.resume_from_checkpoint)])
  ++ cfg.extra

/-- Line 267: `{name: trainer_kwargs[name] for name in valid_kwargs if name
in trainer_kwargs}` — the configuration container filtered to the declared
Trainer parameter names. -/
def filteredTrainerKwargs (valid : List String) (container : List (String × CVal)) :
    List (String × TrainerArg) :=
  (valid.filter (fun n => hasKey container n)).map
    (fun n => (n, TrainerArg.raw ((alookup container n).getD CVal.nested)))

/-- Lines 268-277: `trainer_kwargs.update({...})` — the four unconditional
overrides, in the dict-literal order logger, callbacks,
enable_checkpointing, strategy. -/
def overriddenTrainerKwargs (cfg : Cfg) (logger : Option WandbLoggerRec)
    (cbs : List Hook) (base : List (String × TrainerArg)) :
    List (String × TrainerArg) :=
  let m := aset base "logger" (TrainerArg.loggerArg logger)
  let m := aset m "callbacks" (TrainerArg.callbacksArg cbs)
  let m := aset m "enable_checkpointing" (TrainerArg.enableCheckpointingArg false)
  aset m "strategy" (TrainerArg.strategyArg
    (if cfg.strategy = "ddp" then Strategy.ddpStrategy false
     else Strategy.named cfg.strategy))

/-- Lines 264-277 combined: filter then override. -/
def trainerKwargsFor (env : Env) (cfg : Cfg) (resumeDeleted : Bool)
    (logger : Option WandbLoggerRec) (cbs : List Hook) :
    List (String × TrainerArg) :=
  overriddenTrainerKwargs cfg logger cbs
    (filteredTrainerKwargs env.validTrainerParams (cfgContainer cfg resumeDeleted))

/-- Everything the script has computed right before the fit-loop patch
(line 283). -/
structure CoreOut where
  model : Model
  val_loader : Bool
  ckpt_path : Option String
  wandb_run_id : Option String
  callbacks : List Hook
  wandb_logger : Option WandbLoggerRec
  trainer_kwargs : List (String × TrainerArg)
  fit : FitCall
deriving DecidableEq

/-- The final state of a completed `main` invocation; `patch_applied`
records whether the best-effort fit-loop patch succeeded. -/
structure FinalState extends CoreOut where
  patch_applied : Bool
deriving DecidableEq

/-- Lines 91-278 after the two startup assertions: model assembly, the
validation and pretrain data pipelines, resume resolution, callback
assembly, the wandb logger, and the Trainer keyword arguments. -/
def afterChecks (env : Env) (cfg : Cfg) : List Event × Except Err CoreOut :=
  let ar := assembleModel env cfg
  let ev := [Event.seedEverything cfg.seed, Event.registerTimmBackbone]
    ++ ar.events ++ [Event.makeContiguous]
    ++ (if cfg.disable_channel_last then [] else [Event.channelsLast])
  let v := buildValLoader cfg
  let ev := ev ++ v.2
  match buildPretrainData env cfg with
  | Except.error e => (ev, Except.error e)
  | Except.ok dp =>
    let ev := ev ++ dp.2
    let rr := resolveResume env cfg
    let ev := ev ++ rr.events
    match buildCallbacks env cfg with
    | Except.error e => (ev, Except.error e)
    | Except.ok cbs =>
      let logger := buildWandbLogger cfg rr.wandb_run_id
      let ev := ev ++ (if cfg.wandb.enabled then [Event.wandbLoggerCreate] else [])
      let tk := trainerKwargsFor env cfg rr.resumeDeleted logger cbs
      let ev := ev ++ [Event.trainerConstruct]
      let fit :=
        if dp.1 then FitCall.daliFit rr.ckpt_path
        else FitCall.standardFit rr.ckpt_path v.1
      (ev, Except.ok
        { model := ar.model, val_loader := v.1, ckpt_path := rr.ckpt_path
          wandb_run_id := rr.wandb_run_id, callbacks := cbs
          wandb_logger := logger, trainer_kwargs := tk, fit := fit })

/-- Lines 83-278: seed, the `METHODS` registry assertion (line 85), the
large-crop-count assertion (lines 87-88), then the rest of the pipeline. -/
def corePipeline (env : Env) (cfg : Cfg) : List Event × Except Err CoreOut :=
  if cfg.method ∈ env.methods then
    if cfg.data.num_large_crops ≠ 2 ∧ cfg.method ∉ ["wmse", "mae"] then
      ([Event.seedEverything cfg.seed],
       Except.error (Err.cropCount cfg.method cfg.data.num_large_crops))
    else afterChecks env cfg
  else
    ([Event.seedEverything cfg.seed], Except.error (Err.unknownMethod cfg.method))

/-- Whether the patch attempt succeeded. -/
def isOkOutcome (o : Except String Unit) : Bool :=
  match o with
  | Except.ok _ => true
  | Except.error _ => false

/-- The whole of `main` (lines 72-300).  `patchOutcome` is the runtime
outcome of the fit-loop patch attempt (lines 283-295): the bare `except:
pass` swallows any exception, after which the fit dispatch (lines 297-300)
always runs. -/
def mainRun (env : Env) (patchOutcome : Except String Unit) (cfg : Cfg) :
    List Event × Except Err FinalState :=
  match corePipeline env cfg with
  | (ev, Except.error e) => (ev, Except.error e)
  | (ev, Except.ok c) =>
    let pOk := isOkOutcome patchOutcome
    (ev ++ [if pOk then Event.patchApplied else Event.patchFailed]
        ++ [fitEvent c.fit],
     Except.ok { toCoreOut := c, patch_applied := pOk })

/-- Events that invoke the auto-resume scan. -/
def isScanEvent : Event → Bool
  | Event.autoResumeScan _ _ => true
  | _ => false

/-- Events of the standard (non-dali) pretrain dataset/dataloader path
(lines 171-199). -/
def isStandardPretrainEvent : Event → Bool
  | Event.acdcDatasetBuild _ => true
  | Event.genericDatasetBuild _ => true
  | Event.standardDataloaderBuild => true
  | _ => false

/-- Events that construct the model or load data. -/
def isModelOrDataEvent : Event → Bool
  | Event.modelConstruct _ _ => true
  | Event.zooLoad _ _ => true
  | Event.valLoaderBuild _ _ => true
  | Event.daliDatamoduleBuild => true
  | Event.acdcDatasetBuild _ => true
  | Event.genericDatasetBuild _ => true
  | Event.standardDataloaderBuild => true
  | _ => false

/-- Erase the record of whether the best-effort patch applied. -/
def scrubPatch (fs : FinalState) : FinalState :=
  { fs with patch_applied := true }

/-- A concrete environment: a small method registry containing the momentum
family members `byol` and `mocov2plus`, with both optional imports
available and a Trainer signature fragment. -/
def envW : Env :=
  { methods := ["barlow_twins", "byol", "mocov2plus", "simclr", "wmse", "mae"]
    momentumMethods := ["byol", "mocov2plus"]
    daliAvailable := true
    umapAvailable := true
    initBackbone := fun _ _ => [1, 2, 3]
    initMomentum := fun _ _ => [7, 7, 7]
    zoo := fun _ _ => [4, 5, 6]
    findCheckpoint := fun _ => (Option.none, Option.none)
    validTrainerParams :=
      ["logger", "callbacks", "enable_checkpointing", "strategy",
       "max_epochs", "devices", "accelerator", "precision",
       "resume_from_checkpoint"] }

/-- The same environment with the dali import failed. -/
def envNoDali : Env := { envW with daliAvailable := false }

/-- A concrete configuration: byol on the acdc medical dataset with
checkpointing and auto-resume enabled. -/
def cfgBase : Cfg :=
  { method := "byol"
    name := "byol-acdc-run"
    seed := 5
    backbone_kwargs := [("pretrained_weights", KwVal.str "resnet18_zoo"),
                        ("in_chans", KwVal.natural 1)]
    data := { dataset := "custom", format := "image_folder"
              custom_dataset_name := "acdc", train_path := "/data/acdc/train"
              val_path := Option.none, no_labels := true
              num_large_crops := 2, num_small_crops := 0
              num_workers := 4, fraction := -1 }
    batch_size := 32
    checkpoint := { enabled := true, dir := "trained_models"
                    frequency := 1, keep_prev := false }
    auto_resume := { enabled := true, max_hours := 36 }
    auto_umap := { enabled := false, dir := "auto_umap", frequency := 1 }
    wandb := { enabled := false, project := "ssl-medseg", entity := "team"
               offline := false }
    resume_from_checkpoint := Option.none
    strategy := "ddp"
    debug_augmentations := false
    disable_channel_last := false
    extra := [("max_epochs", CVal.natural 100),
              ("devices", CVal.natural 2),
              ("logger", CVal.str "rogue_logger"),
              ("enable_checkpointing", CVal.boolean true),
              ("not_a_trainer_arg", CVal.natural 9)] }

/-- Variant of `cfgBase` with an explicit resume path supplied. -/
def cfgC2 : Cfg := { cfgBase with resume_from_checkpoint := some "prev/last.ckpt" }

/-- Variant of `cfgBase` with a method name outside the registry. -/
def cfgC5 : Cfg := { cfgBase with method := "unknown_method" }

/-- Variant of `cfgBase` with four large crops. -/
def cfgC6 : Cfg := { cfgBase with data := { cfgBase.data with num_large_crops := 4 } }

/-- Variant of `cfgBase` with the dali data format selected. -/
def cfgC7 : Cfg := { cfgBase with data := { cfgBase.data with format := "dali" } }

/-- Variant of `cfgBase` with the "imagenet" pretrained-weights specifier. -/
def cfgC10 : Cfg :=
  { cfgBase with backbone_kwargs := [("pretrained_weights", KwVal.str "imagenet"),
                                     ("in_chans", KwVal.natural 1)] }

/-- Whether a hook is the periodic checkpoint-saving `Checkpointer`. -/
def isCheckpointerHook : Hook → Bool
  | Hook.checkpointer _ _ _ => true
  | _ => false

/-- Whether a hook is the 2D-embedding-visualization `AutoUMAP`. -/
def isAutoUmapHook : Hook → Bool
  | Hook.autoUmap _ _ _ => true
  | _ => false

/-- Whether a hook is the per-step `LearningRateMonitor`. -/
def isLrMonitorHook : Hook → Bool
  | Hook.lrMonitor _ => true
  | _ => false

/-- Whether a hook is the milestone-epoch `WeightsSaver`. -/
def isWeightsSaverHook : Hook → Bool
  | Hook.weightsSaver _ => true
  | _ => false

/-- Presence of a `Checkpointer` hook in the callback list. -/
def hasCheckpointerHook (cbs : List Hook) : Bool := cbs.any isCheckpointerHook

/-- Presence of an `AutoUMAP` hook in the callback list. -/
def hasAutoUmapHook (cbs : List Hook) : Bool := cbs.any isAutoUmapHook

/-- Presence of a `LearningRateMonitor` hook in the callback list. -/
def hasLrMonitorHook (cbs : List Hook) : Bool := cbs.any isLrMonitorHook

/-- Presence of a `WeightsSaver` hook in the callback list. -/
def hasWeightsSaverHook (cbs : List Hook) : Bool := cbs.any isWeightsSaverHook

theorem alookup_aset_self {α : Type} (m : List (String × α)) (k : String) (v : α) :
    alookup (aset m k v) k = some v := by
  induction m with
  | nil => simp [aset, alookup]
  | cons p rest ih =>
    obtain ⟨k2, w⟩ := p
    by_cases h : k2 = k
    · simp [aset, alookup, h]
    · simp [aset, alookup, h, ih]

theorem alookup_aset_ne {α : Type} (m : List (String × α)) (k k2 : String) (v : α)
    (h : k2 ≠ k) : alookup (aset m k v) k2 = alookup m k2 := by
  have h2 : k ≠ k2 := Ne.symm h
  induction m with
  | nil => simp [aset, alookup, h2]
  | cons p rest ih =>
    obtain ⟨k3, w⟩ := p
    by_cases h3 : k3 = k
    · subst h3
      simp [aset, alookup, h2]
    · simp [aset, alookup, h3, ih]

theorem mem_aset {α : Type} (m : List (String × α)) (k k2 : String) (v w : α)
    (h : (k2, w) ∈ aset m k v) : k2 = k ∨ ∃ u, (k2, u) ∈ m := by
  induction m with
  | nil =>
    simp [aset] at h
    exact Or.inl h.1
  | cons p rest ih =>
    obtain ⟨k3, u⟩ := p
    by_cases h3 : k3 = k
    · simp [aset, h3] at h
      rcases h with h | h
      · exact Or.inl h.1
      · exact Or.inr ⟨w, List.mem_cons_of_mem _ h⟩
    · simp only [aset, if_neg h3, List.mem_cons] at h
      rcases h with h | h
      · refine Or.inr ⟨u, ?_⟩
        rw [Prod.mk.injEq] at h
        simp [h.1]
      · rcases ih h with h | ⟨z, hz⟩
        · exact Or.inl h
        · exact Or.inr ⟨z, List.mem_cons_of_mem _ hz⟩

theorem mem_filteredTrainerKwargs (valid : List String)
    (c : List (String × CVal)) (k : String) (v : TrainerArg)
    (h : (k, v) ∈ filteredTrainerKwargs valid c) : k ∈ valid := by
  simp only [filteredTrainerKwargs, List.mem_map, List.mem_filter] at h
  obtain ⟨n, ⟨hn, _⟩, he⟩ := h
  rw [Prod.mk.injEq] at he
  rw [← he.1]
  exact hn

/-- Claim C3: for every configuration, the keyword arguments passed to the
Trainer constructor form a subset of the parameter names the constructor
declares (given that the constructor declares the four overridden names,
as `pytorch_lightning.Trainer.__init__` does), and the four overridden
keys logger, callbacks, enable_checkpointing and strategy take the
script-computed values even when keys of the same name occur in the raw
configuration container. -/
theorem c3_trainer_kwargs_projection (env : Env) (cfg : Cfg)
    (resumeDeleted : Bool) (logger : Option WandbLoggerRec) (cbs : List Hook)
    (h1 : "logger" ∈ env.validTrainerParams)
    (h2 : "callbacks" ∈ env.validTrainerParams)
    (h3 : "enable_checkpointing" ∈ env.validTrainerParams)
    (h4 : "strategy" ∈ env.validTrainerParams) :
    (∀ k v, (k, v) ∈ trainerKwargsFor env cfg resumeDeleted logger cbs →
      k ∈ env.validTrainerParams) ∧
    alookup (trainerKwargsFor env cfg resumeDeleted logger cbs) "logger"
      = some (TrainerArg.loggerArg logger) ∧
    alookup (trainerKwargsFor env cfg resumeDeleted logger cbs) "callbacks"
      = some (TrainerArg.callbacksArg cbs) ∧
    alookup (trainerKwargsFor env cfg resumeDeleted logger cbs) "enable_checkpointing"
      = some (TrainerArg.enableCheckpointingArg false) ∧
    alookup (trainerKwargsFor env cfg resumeDeleted logger cbs) "strategy"
      = some (TrainerArg.strategyArg
          (if cfg.strategy = "ddp" then Strategy.ddpStrategy false
           else Strategy.named cfg.strategy)) := by
  constructor
  · intro k v hmem
    simp only [trainerKwargsFor, overriddenTrainerKwargs] at hmem
    rcases mem_aset _ _ _ _ _ hmem with h | ⟨u, hu⟩
    · subst h; exact h4
    rcases mem_aset _ _ _ _ _ hu with h | ⟨u2, hu2⟩
    · subst h; exact h3
    rcases mem_aset _ _ _ _ _ hu2 with h | ⟨u3, hu3⟩
    · subst h; exact h2
    rcases mem_aset _ _ _ _ _ hu3 with h | ⟨u4, hu4⟩
    · subst h; exact h1
    exact mem_filteredTrainerKwargs _ _ _ _ hu4
  · refine ⟨?_, ?_, ?_, ?_⟩
    · simp only [trainerKwargsFor, overriddenTrainerKwargs]
      rw [alookup_aset_ne _ _ _ _ (by decide), alookup_aset_ne _ _ _ _ (by decide),
          alookup_aset_ne _ _ _ _ (by decide), alookup_aset_self]
    · simp only [trainerKwargsFor, overriddenTrainerKwargs]
      rw [alookup_aset_ne _ _ _ _ (by decide), alookup_aset_ne _ _ _ _ (by decide),
          alookup_aset_self]
    · simp only [trainerKwargsFor, overriddenTrainerKwargs]
      rw [alookup_aset_ne _ _ _ _ (by decide), alookup_aset_self]
    · simp only [trainerKwargsFor, overriddenTrainerKwargs]
      rw [alookup_aset_self]

theorem alookup_aerase_ne {α : Type} (m : List (String × α)) (k k2 : String)
    (h : k2 ≠ k) : alookup (aerase m k) k2 = alookup m k2 := by
  have h2 : k ≠ k2 := Ne.symm h
  induction m with
  | nil => simp [aerase]
  | cons p rest ih =>
    obtain ⟨k3, w⟩ := p
    by_cases h3 : k3 = k
    · subst h3
      simp [aerase, alookup, h2, ih]
    · simp [aerase, alookup, h3, ih]

theorem hasKey_aerase_ne {α : Type} (m : List (String × α)) (k k2 : String)
    (h : k2 ≠ k) : hasKey (aerase m k) k2 = hasKey m k2 := by
  simp [hasKey, alookup_aerase_ne m k k2 h]

theorem zooLoadPerformed_eq (env : Env) (cfg : Cfg) :
    (assembleModel env cfg).zooLoadPerformed
      = !(noZooLoad (alookup cfg.backbone_kwargs "pretrained_weights")) := by
  cases h : noZooLoad (alookup cfg.backbone_kwargs "pretrained_weights") <;>
    simp [assembleModel, h]

theorem noZooLoad_eq_false_iff (p : Option KwVal) :
    noZooLoad p = false ↔
      (p ≠ Option.none ∧ p ≠ some KwVal.null ∧
       p ≠ some (KwVal.str "None") ∧ p ≠ some (KwVal.str "imagenet")) := by
  cases p with
  | none => simp [noZooLoad]
  | some v => cases v <;> simp [noZooLoad]

/-- Claim C4: for every configuration supplying pretrained weights (a
specifier other than None, "None", or "imagenet") and every method that
maintains a momentum shadow backbone, after the model-assembly phase the
parameters of the momentum backbone equal those of the primary backbone. -/
theorem c4_momentum_reseeded (env : Env) (cfg : Cfg)
    (hload : noZooLoad (alookup cfg.backbone_kwargs "pretrained_weights") = false)
    (hmom : cfg.method ∈ env.momentumMethods) :
    (assembleModel env cfg).model.momentum_backbone
      = some (assembleModel env cfg).model.backbone := by
  simp [assembleModel, hload, hmom, init_momentum_params]

/-- Witness for C4: `byol` (a momentum method) with a zoo specifier. -/
theorem c4_witness :
    (assembleModel envW cfgBase).model.momentum_backbone
      = some (assembleModel envW cfgBase).model.backbone :=
  c4_momentum_reseeded envW cfgBase (by decide) (by decide)

/-- Claim C10: the weight-zoo lookup and backbone load happen iff the
`pretrained_weights` specifier is neither absent, nor None, nor the string
"None", nor "imagenet"; and when it is exactly "imagenet" with no explicit
`pretrained` key in the backbone kwargs, the script instead sets
`pretrained = True` in the kwargs used at model construction and performs
no zoo load. -/
theorem c10_pretrained_weight_handling (env : Env) (cfg : Cfg) :
    ((assembleModel env cfg).zooLoadPerformed = true ↔
      (alookup cfg.backbone_kwargs "pretrained_weights" ≠ Option.none ∧
       alookup cfg.backbone_kwargs "pretrained_weights" ≠ some KwVal.null ∧
       alookup cfg.backbone_kwargs "pretrained_weights" ≠ some (KwVal.str "None") ∧
       alookup cfg.backbone_kwargs "pretrained_weights" ≠ some (KwVal.str "imagenet"))) ∧
    ((alookup cfg.backbone_kwargs "pretrained_weights" = some (KwVal.str "imagenet") ∧
      hasKey cfg.backbone_kwargs "pretrained" = false) →
      alookup (assembleModel env cfg).kwargs_at_construction "pretrained"
        = some (KwVal.boolean true) ∧
      (assembleModel env cfg).zooLoadPerformed = false) := by
  constructor
  · rw [zooLoadPerformed_eq, Bool.not_eq_true']
    exact noZooLoad_eq_false_iff _
  · rintro ⟨himg, hpre⟩
    have hpre2 : hasKey (aerase cfg.backbone_kwargs "pretrained_weights") "pretrained"
        = false := by
      rw [hasKey_aerase_ne _ _ _ (by decide)]
      exact hpre
    constructor
    · simp [assembleModel, himg, hpre2, noZooLoad, alookup_aset_self]
    · simp [assembleModel, himg, noZooLoad]

/-- Witness for C10: an "imagenet" specifier with no `pretrained` key leads
to `pretrained = True` at construction and no zoo load. -/
theorem c10_witness :
    alookup (assembleModel envW cfgC10).kwargs_at_construction "pretrained"
      = some (KwVal.boolean true) ∧
    (assembleModel envW cfgC10).zooLoadPerformed = false :=
  (c10_pretrained_weight_handling envW cfgC10).2 ⟨rfl, rfl⟩

/-- Claim C1 (refuted): the tree the auto-resume resolver scans is NOT the
tree the checkpointing hook writes into.  At the concrete configuration
below the `AutoResumer` scans `trained_models/byol` (checkpoint dir joined
with the method name alone) while the `Checkpointer` hook writes into
`trained_models/byol_acdc` (keyed by method name and dataset name), so a
scan of a subsequent invocation cannot see the checkpoints this script
saves. -/
theorem c1_scan_and_write_trees_differ :
    resolveResume envW cfgBase
      = { ckpt_path := Option.none, wandb_run_id := Option.none
          resumeDeleted := false
          events := [Event.autoResumeScan "trained_models/byol" 36] } ∧
    buildCallbacks envW cfgBase
      = Except.ok [Hook.checkpointer "trained_models/byol_acdc" 1 false,
                   Hook.weightsSaver [5, 10, 50, 100, 200, 300, 400]] ∧
    autoResumerScanDir cfgBase = "trained_models/byol" ∧
    checkpointerLogdir cfgBase = "trained_models/byol_acdc" ∧
    autoResumerScanDir cfgBase ≠ checkpointerLogdir cfgBase :=
  ⟨rfl, rfl, rfl, rfl, by decide⟩

theorem buildCallbacks_ok_spec (env : Env) (cfg : Cfg) (cbs : List Hook)
    (h : buildCallbacks env cfg = Except.ok cbs) :
    hasCheckpointerHook cbs = cfg.checkpoint.enabled ∧
    hasAutoUmapHook cbs = cfg.auto_umap.enabled ∧
    hasLrMonitorHook cbs = cfg.wandb.enabled ∧
    hasWeightsSaverHook cbs = cfg.checkpoint.enabled ∧
    (cfg.checkpoint.enabled = true →
      Hook.weightsSaver [5, 10, 50, 100, 200, 300, 400] ∈ cbs) := by
  by_cases hu : cfg.auto_umap.enabled = true ∧ env.umapAvailable = false
  · simp [buildCallbacks, hu] at h
  · simp only [buildCallbacks] at h
    rw [if_neg hu] at h
    simp only [Except.ok.injEq] at h
    subst h
    cases hck : cfg.checkpoint.enabled <;> cases hum : cfg.auto_umap.enabled <;>
      cases hw : cfg.wandb.enabled <;>
      simp [hck, hum, hw, List.any_append, hasCheckpointerHook, hasAutoUmapHook,
        hasLrMonitorHook, hasWeightsSaverHook, isCheckpointerHook, isAutoUmapHook,
        isLrMonitorHook, isWeightsSaverHook]

/-- Counterexample to Claim C8 as stated: the milestone-epoch weight-snapshot
hook has no toggle independent of the checkpointing toggle — there is no
configuration at all in which the checkpoint-saving hook is present while
the weight-snapshot hook is absent, because both are gated by
`cfg.checkpoint.enabled`. -/
theorem c8_counterexample :
    ¬ ∃ (cfg : Cfg) (cbs : List Hook),
        buildCallbacks envW cfg = Except.ok cbs ∧
        hasCheckpointerHook cbs = true ∧ hasWeightsSaverHook cbs = false := by
  rintro ⟨cfg, cbs, hok, h1, h2⟩
  rcases buildCallbacks_ok_spec envW cfg cbs hok with ⟨e1, -, -, e4, -⟩
  rw [e1] at h1
  rw [e4] at h2
  rw [h1] at h2
  exact absurd h2 (by decide)

/-- Claim C8 (amended): the hook list is assembled from boolean toggles:
the checkpoint-saving hook iff the checkpointing toggle, the
2D-embedding-visualization hook iff its own toggle, the per-step
learning-rate logging hook iff the wandb toggle, and the milestone-epoch
weight-snapshot hook (milestones 5, 10, 50, 100, 200, 300, 400) iff the
same checkpointing toggle as the checkpoint-saving hook. -/
theorem c8_hooks_gated_by_toggles (env : Env) (cfg : Cfg) (cbs : List Hook)
    (h : buildCallbacks env cfg = Except.ok cbs) :
    hasCheckpointerHook cbs = cfg.checkpoint.enabled ∧
    hasAutoUmapHook cbs = cfg.auto_umap.enabled ∧
    hasLrMonitorHook cbs = cfg.wandb.enabled ∧
    hasWeightsSaverHook cbs = cfg.checkpoint.enabled ∧
    (cfg.checkpoint.enabled = true →
      Hook.weightsSaver [5, 10, 50, 100, 200, 300, 400] ∈ cbs) :=
  buildCallbacks_ok_spec env cfg cbs h

/-- Witness for C8 (amended) at the concrete configuration. -/
theorem c8_witness :
    hasCheckpointerHook [Hook.checkpointer "trained_models/byol_acdc" 1 false,
        Hook.weightsSaver [5, 10, 50, 100, 200, 300, 400]]
      = cfgBase.checkpoint.enabled ∧
    hasAutoUmapHook [Hook.checkpointer "trained_models/byol_acdc" 1 false,
        Hook.weightsSaver [5, 10, 50, 100, 200, 300, 400]]
      = cfgBase.auto_umap.enabled ∧
    hasLrMonitorHook [Hook.checkpointer "trained_models/byol_acdc" 1 false,
        Hook.weightsSaver [5, 10, 50, 100, 200, 300, 400]]
      = cfgBase.wandb.enabled ∧
    hasWeightsSaverHook [Hook.checkpointer "trained_models/byol_acdc" 1 false,
        Hook.weightsSaver [5, 10, 50, 100, 200, 300, 400]]
      = cfgBase.checkpoint.enabled ∧
    (cfgBase.checkpoint.enabled = true →
      Hook.weightsSaver [5, 10, 50, 100, 200, 300, 400]
        ∈ [Hook.checkpointer "trained_models/byol_acdc" 1 false,
           Hook.weightsSaver [5, 10, 50, 100, 200, 300, 400]]) :=
  c8_hooks_gated_by_toggles envW cfgBase
    [Hook.checkpointer "trained_models/byol_acdc" 1 false,
     Hook.weightsSaver [5, 10, 50, 100, 200, 300, 400]] rfl

/-- Witness for C3 at a concrete environment and configuration whose raw
container contains rogue `logger` and `enable_checkpointing` keys. -/
theorem c3_witness :
    (∀ k v, (k, v) ∈ trainerKwargsFor envW cfgBase false Option.none [] →
      k ∈ envW.validTrainerParams) ∧
    alookup (trainerKwargsFor envW cfgBase false Option.none []) "logger"
      = some (TrainerArg.loggerArg Option.none) ∧
    alookup (trainerKwargsFor envW cfgBase false Option.none []) "callbacks"
      = some (TrainerArg.callbacksArg []) ∧
    alookup (trainerKwargsFor envW cfgBase false Option.none []) "enable_checkpointing"
      = some (TrainerArg.enableCheckpointingArg false) ∧
    alookup (trainerKwargsFor envW cfgBase false Option.none []) "strategy"
      = some (TrainerArg.strategyArg
          (if cfgBase.strategy = "ddp" then Strategy.ddpStrategy false
           else Strategy.named cfgBase.strategy)) :=
  c3_trainer_kwargs_projection envW cfgBase false Option.none []
    (by decide) (by decide) (by decide) (by decide)

theorem assembleModel_no_scan (env : Env) (cfg : Cfg) :
    ((assembleModel env cfg).events).all (fun e => !(isScanEvent e)) = true := by
  cases h : noZooLoad (alookup cfg.backbone_kwargs "pretrained_weights") <;>
    by_cases hm : cfg.method ∈ env.momentumMethods <;>
    simp [assembleModel, h, hm, isScanEvent]

theorem assembleModel_no_standard (env : Env) (cfg : Cfg) :
    ((assembleModel env cfg).events).all
      (fun e => !(isStandardPretrainEvent e)) = true := by
  cases h : noZooLoad (alookup cfg.backbone_kwargs "pretrained_weights") <;>
    by_cases hm : cfg.method ∈ env.momentumMethods <;>
    simp [assembleModel, h, hm, isStandardPretrainEvent]

theorem buildValLoader_no_scan (cfg : Cfg) :
    ((buildValLoader cfg).2).all (fun e => !(isScanEvent e)) = true := by
  simp only [buildValLoader]
  split
  · rfl
  · split
    · rfl
    · rfl

theorem buildValLoader_no_standard (cfg : Cfg) :
    ((buildValLoader cfg).2).all (fun e => !(isStandardPretrainEvent e)) = true := by
  simp only [buildValLoader]
  split
  · rfl
  · split
    · rfl
    · rfl

theorem buildPretrainData_ok_no_scan (env : Env) (cfg : Cfg)
    (dp : Bool × List Event) (h : buildPretrainData env cfg = Except.ok dp) :
    (dp.2).all (fun e => !(isScanEvent e)) = true := by
  simp only [buildPretrainData] at h
  split at h
  · split at h
    · exact Except.noConfusion h
    · simp only [Except.ok.injEq] at h
      rw [← h]
      rfl
  · split at h <;>
      simp only [Except.ok.injEq] at h <;>
      rw [← h] <;>
      rfl

theorem buildPretrainData_error_shape (env : Env) (cfg : Cfg) (e : Err)
    (h : buildPretrainData env cfg = Except.error e) :
    ∃ m, e = Err.daliUnavailable m := by
  simp only [buildPretrainData] at h
  split at h
  · split at h
    · simp only [Except.error.injEq] at h
      exact ⟨_, h.symm⟩
    · exact Except.noConfusion h
  · split at h <;> exact Except.noConfusion h

theorem buildCallbacks_error_shape (env : Env) (cfg : Cfg) (e : Err)
    (h : buildCallbacks env cfg = Except.error e) :
    ∃ m, e = Err.umapUnavailable m := by
  simp only [buildCallbacks] at h
  split at h
  · simp only [Except.error.injEq] at h
    exact ⟨_, h.symm⟩
  · exact Except.noConfusion h

theorem resolveResume_explicit (env : Env) (cfg : Cfg) (p : String)
    (h : cfg.resume_from_checkpoint = some p) :
    resolveResume env cfg
      = { ckpt_path := some p, wandb_run_id := Option.none
          resumeDeleted := true, events := [] } := by
  simp [resolveResume, h]

theorem afterChecks_no_scan (env : Env) (cfg : Cfg) (p : String)
    (h : cfg.resume_from_checkpoint = some p) :
    ((afterChecks env cfg).1).all (fun e => !(isScanEvent e)) = true := by
  have hrr := resolveResume_explicit env cfg p h
  have ham := assembleModel_no_scan env cfg
  have hvl := buildValLoader_no_scan cfg
  cases hbp : buildPretrainData env cfg with
  | error e =>
    simp only [afterChecks, hbp]
    repeat rw [List.all_append]
    rw [ham, hvl]
    cases hdc : cfg.disable_channel_last <;> rfl
  | ok dp =>
    have hdp := buildPretrainData_ok_no_scan env cfg dp hbp
    cases hcb : buildCallbacks env cfg with
    | error e =>
      simp only [afterChecks, hbp, hcb]
      repeat rw [List.all_append]
      rw [ham, hvl, hdp, hrr]
      cases hdc : cfg.disable_channel_last <;> rfl
    | ok cbs =>
      simp only [afterChecks, hbp, hcb]
      repeat rw [List.all_append]
      rw [ham, hvl, hdp, hrr]
      cases hdc : cfg.disable_channel_last <;>
        cases hw : cfg.wandb.enabled <;> rfl

theorem afterChecks_no_standard_of_dali (env : Env) (cfg : Cfg)
    (hfmt : cfg.data.format = "dali") (hdali : env.daliAvailable = false) :
    ((afterChecks env cfg).1).all (fun e => !(isStandardPretrainEvent e)) = true := by
  have hbp : buildPretrainData env cfg
      = Except.error (Err.daliUnavailable
          "Dali is not currently avaiable, please install it first with pip3 install .[dali].") := by
    simp [buildPretrainData, hfmt, hdali]
  have ham := assembleModel_no_standard env cfg
  have hvl := buildValLoader_no_standard cfg
  simp only [afterChecks, hbp]
  repeat rw [List.all_append]
  rw [ham, hvl]
  cases hdc : cfg.disable_channel_last <;> rfl

theorem afterChecks_dali_error (env : Env) (cfg : Cfg)
    (hfmt : cfg.data.format = "dali") (hdali : env.daliAvailable = false) :
    (afterChecks env cfg).2
      = Except.error (Err.daliUnavailable
          "Dali is not currently avaiable, please install it first with pip3 install .[dali].") := by
  have hbp : buildPretrainData env cfg
      = Except.error (Err.daliUnavailable
          "Dali is not currently avaiable, please install it first with pip3 install .[dali].") := by
    simp [buildPretrainData, hfmt, hdali]
  simp [afterChecks, hbp]

theorem afterChecks_error_shape (env : Env) (cfg : Cfg) (e : Err)
    (h : (afterChecks env cfg).2 = Except.error e) :
    (∃ m, e = Err.daliUnavailable m) ∨ (∃ m, e = Err.umapUnavailable m) := by
  cases hbp : buildPretrainData env cfg with
  | error e2 =>
    have he2 := buildPretrainData_error_shape env cfg e2 hbp
    simp only [afterChecks, hbp, Except.error.injEq] at h
    rw [h] at he2
    exact Or.inl he2
  | ok dp =>
    cases hcb : buildCallbacks env cfg with
    | error e2 =>
      have he2 := buildCallbacks_error_shape env cfg e2 hcb
      simp only [afterChecks, hbp, hcb, Except.error.injEq] at h
      rw [h] at he2
      exact Or.inr he2
    | ok cbs =>
      simp [afterChecks, hbp, hcb] at h

theorem afterChecks_ok_ckpt (env : Env) (cfg : Cfg) (p : String)
    (h : cfg.resume_from_checkpoint = some p) (c : CoreOut)
    (hok : (afterChecks env cfg).2 = Except.ok c) :
    c.ckpt_path = some p ∧ fitCkpt c.fit = some p := by
  have hrr := resolveResume_explicit env cfg p h
  cases hbp : buildPretrainData env cfg with
  | error e => simp [afterChecks, hbp] at hok
  | ok dp =>
    cases hcb : buildCallbacks env cfg with
    | error e => simp [afterChecks, hbp, hcb] at hok
    | ok cbs =>
      simp only [afterChecks, hbp, hcb, hrr, Except.ok.injEq] at hok
      rw [← hok]
      cases hd : dp.1 <;> simp [fitCkpt, hd]

theorem corePipeline_no_scan (env : Env) (cfg : Cfg) (p : String)
    (h : cfg.resume_from_checkpoint = some p) :
    ((corePipeline env cfg).1).all (fun e => !(isScanEvent e)) = true := by
  by_cases hm : cfg.method ∈ env.methods
  · by_cases hc : cfg.data.num_large_crops ≠ 2 ∧ cfg.method ∉ ["wmse", "mae"]
    · simp [corePipeline, hm, hc, isScanEvent]
    · rw [corePipeline, if_pos hm, if_neg hc]
      exact afterChecks_no_scan env cfg p h
  · simp [corePipeline, hm, isScanEvent]

theorem corePipeline_error_cropCount_iff (env : Env) (cfg : Cfg) :
    (corePipeline env cfg).2
        = Except.error (Err.cropCount cfg.method cfg.data.num_large_crops) ↔
      (cfg.method ∈ env.methods ∧ cfg.data.num_large_crops ≠ 2 ∧
        cfg.method ∉ ["wmse", "mae"]) := by
  by_cases hm : cfg.method ∈ env.methods
  · by_cases hc : cfg.data.num_large_crops ≠ 2 ∧ cfg.method ∉ ["wmse", "mae"]
    · simp [corePipeline, hm, hc]
    · rw [corePipeline, if_pos hm, if_neg hc]
      constructor
      · intro h
        rcases afterChecks_error_shape env cfg _ h with ⟨m, hm2⟩ | ⟨m, hm2⟩ <;>
          exact absurd hm2 (by simp)
      · intro h2
        exact absurd ⟨h2.2.1, h2.2.2⟩ hc
  · simp [corePipeline, hm]

theorem mainRun_error_iff (env : Env) (po : Except String Unit) (cfg : Cfg)
    (e : Err) :
    (mainRun env po cfg).2 = Except.error e ↔
      (corePipeline env cfg).2 = Except.error e := by
  cases hc : corePipeline env cfg with
  | mk ev r => cases r <;> simp [mainRun, hc]

theorem mainRun_ok_core (env : Env) (po : Except String Unit) (cfg : Cfg)
    (fs : FinalState) (h : (mainRun env po cfg).2 = Except.ok fs) :
    (corePipeline env cfg).2 = Except.ok fs.toCoreOut := by
  cases hc : corePipeline env cfg with
  | mk ev r =>
    cases r with
    | error e => simp [mainRun, hc] at h
    | ok c =>
      simp only [mainRun, hc, Except.ok.injEq] at h
      rw [← h]

theorem mainRun_events_shape (env : Env) (po : Except String Unit) (cfg : Cfg) :
    (mainRun env po cfg).1 = (corePipeline env cfg).1 ∨
    ∃ c, (corePipeline env cfg).2 = Except.ok c ∧
      (mainRun env po cfg).1 = (corePipeline env cfg).1
        ++ [if isOkOutcome po then Event.patchApplied else Event.patchFailed]
        ++ [fitEvent c.fit] := by
  cases hc : corePipeline env cfg with
  | mk ev r =>
    cases r with
    | error e =>
      left
      simp [mainRun, hc]
    | ok c =>
      right
      exact ⟨c, by simp [hc], by simp [mainRun, hc]⟩

/-- Claim C2: whenever an explicit `resume_from_checkpoint` path is
supplied, the auto-resume scan is never invoked — regardless of the
`auto_resume.enabled` toggle and of checkpoint-directory contents — and the
explicit path is the checkpoint path passed to the training run. -/
theorem c2_explicit_resume_precedence (env : Env) (po : Except String Unit)
    (cfg : Cfg) (p : String) (h : cfg.resume_from_checkpoint = some p) :
    (∀ e ∈ (mainRun env po cfg).1, isScanEvent e = false) ∧
    (∀ fs, (mainRun env po cfg).2 = Except.ok fs →
      fs.ckpt_path = some p ∧ fitCkpt fs.fit = some p) := by
  constructor
  · intro e he
    rcases mainRun_events_shape env po cfg with hE | ⟨c, hok, hE⟩
    · rw [hE] at he
      simpa using List.all_eq_true.mp (corePipeline_no_scan env cfg p h) e he
    · rw [hE] at he
      simp only [List.mem_append, List.mem_singleton] at he
      rcases he with (he | he) | he
      · simpa using List.all_eq_true.mp (corePipeline_no_scan env cfg p h) e he
      · rw [he]
        cases hpo : isOkOutcome po <;> simp [isScanEvent]
      · rw [he]
        cases c.fit <;> simp [fitEvent, isScanEvent]
  · intro fs hfs
    have hcore := mainRun_ok_core env po cfg fs hfs
    by_cases hm : cfg.method ∈ env.methods
    · by_cases hc2 : cfg.data.num_large_crops ≠ 2 ∧ cfg.method ∉ ["wmse", "mae"]
      · simp [corePipeline, hm, hc2] at hcore
      · rw [corePipeline, if_pos hm, if_neg hc2] at hcore
        exact afterChecks_ok_ckpt env cfg p h fs.toCoreOut hcore
    · simp [corePipeline, hm] at hcore

/-- Witness for C2 at a concrete configuration with an explicit resume
path and auto-resume enabled. -/
theorem c2_witness :
    (∀ e ∈ (mainRun envW (Except.ok ()) cfgC2).1, isScanEvent e = false) ∧
    (∀ fs, (mainRun envW (Except.ok ()) cfgC2).2 = Except.ok fs →
      fs.ckpt_path = some "prev/last.ckpt" ∧ fitCkpt fs.fit = some "prev/last.ckpt") :=
  c2_explicit_resume_precedence envW (Except.ok ()) cfgC2 "prev/last.ckpt" rfl

/-- Claim C5: a method name outside the registry makes startup fail
immediately after seeding — before any model construction or data
loading. -/
theorem c5_unknown_method_fails_first (env : Env) (po : Except String Unit)
    (cfg : Cfg) (h : cfg.method ∉ env.methods) :
    mainRun env po cfg
      = ([Event.seedEverything cfg.seed],
         Except.error (Err.unknownMethod cfg.method)) ∧
    ∀ e ∈ (mainRun env po cfg).1, isModelOrDataEvent e = false := by
  have hc : corePipeline env cfg
      = ([Event.seedEverything cfg.seed],
         Except.error (Err.unknownMethod cfg.method)) := by
    simp [corePipeline, h]
  constructor
  · simp [mainRun, hc]
  · intro e he
    simp only [mainRun, hc, List.mem_singleton] at he
    rw [he]
    rfl

/-- Witness for C5: an unregistered method name. -/
theorem c5_witness :
    mainRun envW (Except.ok ()) cfgC5
      = ([Event.seedEverything 5],
         Except.error (Err.unknownMethod "unknown_method")) ∧
    ∀ e ∈ (mainRun envW (Except.ok ()) cfgC5).1, isModelOrDataEvent e = false :=
  c5_unknown_method_fails_first envW (Except.ok ()) cfgC5 (by decide)

/-- Claim C6: the run fails with the crop-count assertion exactly when the
registered method is not in the allow-list `["wmse", "mae"]` and the number
of large crops differs from 2; in particular allow-listed methods pass the
check for any crop count. -/
theorem c6_crop_count_check (env : Env) (po : Except String Unit) (cfg : Cfg) :
    (mainRun env po cfg).2
        = Except.error (Err.cropCount cfg.method cfg.data.num_large_crops) ↔
      (cfg.method ∈ env.methods ∧ cfg.data.num_large_crops ≠ 2 ∧
        cfg.method ∉ ["wmse", "mae"]) :=
  (mainRun_error_iff env po cfg _).trans (corePipeline_error_cropCount_iff env cfg)

/-- Witness for C6: four large crops with the non-allow-listed `byol`. -/
theorem c6_witness :
    (mainRun envW (Except.ok ()) cfgC6).2
      = Except.error (Err.cropCount "byol" 4) :=
  (c6_crop_count_check envW (Except.ok ()) cfgC6).mpr (by decide)

/-- Claim C7: when the dali backend is selected but its import failed, the
run never reaches a successful state, the standard pretrain
dataset/dataloader path is never taken, and (once the two startup
assertions pass) the failure is the explicit dali-install assertion
message. -/
theorem c7_dali_unavailable_fails_fast (env : Env) (po : Except String Unit)
    (cfg : Cfg) (hfmt : cfg.data.format = "dali")
    (hdali : env.daliAvailable = false) :
    (∀ fs, (mainRun env po cfg).2 ≠ Except.ok fs) ∧
    (∀ e ∈ (mainRun env po cfg).1, isStandardPretrainEvent e = false) ∧
    (cfg.method ∈ env.methods →
      (cfg.data.num_large_crops = 2 ∨ cfg.method ∈ ["wmse", "mae"]) →
      (mainRun env po cfg).2 = Except.error (Err.daliUnavailable
        "Dali is not currently avaiable, please install it first with pip3 install .[dali].")) := by
  have hcore : ∃ e, (corePipeline env cfg).2 = Except.error e := by
    by_cases hm : cfg.method ∈ env.methods
    · by_cases hc2 : cfg.data.num_large_crops ≠ 2 ∧ cfg.method ∉ ["wmse", "mae"]
      · exact ⟨Err.cropCount cfg.method cfg.data.num_large_crops,
          by simp [corePipeline, hm, hc2]⟩
      · refine ⟨Err.daliUnavailable
          "Dali is not currently avaiable, please install it first with pip3 install .[dali].", ?_⟩
        rw [corePipeline, if_pos hm, if_neg hc2]
        exact afterChecks_dali_error env cfg hfmt hdali
    · exact ⟨Err.unknownMethod cfg.method, by simp [corePipeline, hm]⟩
  obtain ⟨eErr, hcoreE⟩ := hcore
  refine ⟨?_, ?_, ?_⟩
  · intro fs hfs
    have h2 := mainRun_ok_core env po cfg fs hfs
    rw [hcoreE] at h2
    exact Except.noConfusion h2
  · intro e he
    have hEv : (mainRun env po cfg).1 = (corePipeline env cfg).1 := by
      rcases mainRun_events_shape env po cfg with hE | ⟨c, hok, hE⟩
      · exact hE
      · rw [hcoreE] at hok
        exact Except.noConfusion hok
    rw [hEv] at he
    have hall : ((corePipeline env cfg).1).all
        (fun e => !(isStandardPretrainEvent e)) = true := by
      by_cases hm : cfg.method ∈ env.methods
      · by_cases hc2 : cfg.data.num_large_crops ≠ 2 ∧ cfg.method ∉ ["wmse", "mae"]
        · simp [corePipeline, hm, hc2, isStandardPretrainEvent]
        · rw [corePipeline, if_pos hm, if_neg hc2]
          exact afterChecks_no_standard_of_dali env cfg hfmt hdali
      · simp [corePipeline, hm, isStandardPretrainEvent]
    simpa using List.all_eq_true.mp hall e he
  · intro hm hcrop
    have hc2 : ¬(cfg.data.num_large_crops ≠ 2 ∧ cfg.method ∉ ["wmse", "mae"]) := by
      rcases hcrop with h2 | h2 <;> simp [h2]
    rw [mainRun_error_iff, corePipeline, if_pos hm, if_neg hc2]
    exact afterChecks_dali_error env cfg hfmt hdali

/-- Witness for C7: dali format with the dali import failed. -/
theorem c7_witness :
    (∀ fs, (mainRun envNoDali (Except.ok ()) cfgC7).2 ≠ Except.ok fs) ∧
    (∀ e ∈ (mainRun envNoDali (Except.ok ()) cfgC7).1,
      isStandardPretrainEvent e = false) ∧
    (mainRun envNoDali (Except.ok ()) cfgC7).2
      = Except.error (Err.daliUnavailable
          "Dali is not currently avaiable, please install it first with pip3 install .[dali].") := by
  obtain ⟨a, b, c⟩ :=
    c7_dali_unavailable_fails_fast envNoDali (Except.ok ()) cfgC7 rfl rfl
  exact ⟨a, b, c (by decide) (Or.inl rfl)⟩

/-- Claim C9: any failure of the best-effort fit-loop patch is swallowed:
the outcome of the run is identical up to the record of whether the patch
applied, and whenever the run completes, the fit dispatch event is in its
trace. -/
theorem c9_patch_failure_swallowed (env : Env) (cfg : Cfg)
    (o1 o2 : Except String Unit) :
    ((mainRun env o1 cfg).2).map scrubPatch
        = ((mainRun env o2 cfg).2).map scrubPatch ∧
    (∀ fs, (mainRun env o1 cfg).2 = Except.ok fs →
      fitEvent fs.fit ∈ (mainRun env o1 cfg).1) := by
  constructor
  · cases hc : corePipeline env cfg with
    | mk ev r => cases r <;> simp [mainRun, hc, Except.map, scrubPatch]
  · intro fs hfs
    cases hc : corePipeline env cfg with
    | mk ev r =>
      cases r with
      | error e => simp [mainRun, hc] at hfs
      | ok c =>
        simp only [mainRun, hc, Except.ok.injEq] at hfs
        rw [← hfs]
        simp [mainRun, hc]

/-- Witness for C9: a failing patch attempt versus a succeeding one at the
concrete configuration. -/
theorem c9_witness :
    ((mainRun envW (Except.error "patch failed") cfgBase).2).map scrubPatch
        = ((mainRun envW (Except.ok ()) cfgBase).2).map scrubPatch ∧
    (∀ fs, (mainRun envW (Except.error "patch failed") cfgBase).2 = Except.ok fs →
      fitEvent fs.fit ∈ (mainRun envW (Except.error "patch failed") cfgBase).1) :=
  c9_patch_failure_swallowed envW cfgBase (Except.error "patch failed") (Except.ok ())

end SSLMedseg
